import Mathlib

/-!
Shallow embedding of the webhook reconciliation core of the waldur-mastermind
support bridge.  The repository excerpt contains the URL routing and the test
suite (`src/src/waldur_mastermind/support/tests/test_jira_web_hooks.py`); the
reconciliation engine itself (the webhook serializer/backend) is not part of
the excerpt, so the definitions below are modelled from the specification,
with two behaviours pinned down by the repository's own tests where they are
more precise than the spec:

* `test_issue_update_callback_does_not_update_issue_link` (lines 43-54) shows
  that reconciliation leaves the local issue's `link` unchanged;
* `test_web_hook_does_not_trigger_issue_update_email_if_the_issue_was_not_updated`
  (lines 296-322) shows that creating a comment sends one "comment added"
  email and no "issue updated" email when no issue field changed.
-/

/-- A local support-user record (Identity): remote backend identifier plus an
optional link to a local user account (modelled by its numeric id). -/
structure SupportUser where
  backend_id : String
  user : Option Nat
deriving Repr, DecidableEq

/-- A local comment mirroring a remote comment, owned by one issue. -/
structure Comment where
  backend_id : String
  description : String
  author : String
deriving Repr, DecidableEq

/-- A local attachment mirroring a remote attachment; content is fetched once
at creation and never updated in place. -/
structure Attachment where
  backend_id : String
  content : String
deriving Repr, DecidableEq

/-- A local issue: mirror of a remote issue, matched by backend identifier. -/
structure Issue where
  backend_id : String
  summary : String
  description : String
  status : String
  resolution : String
  priority : String
  type : String
  impact : String
  link : String
  first_response_sla : Option ℤ
  reporter : String
  assignee : Option String
  caller : Option Nat
  comments : List Comment
  attachments : List Attachment
deriving Repr, DecidableEq

/-- A comment as carried by the webhook payload. -/
structure RemoteComment where
  id : String
  body : String
  author : String
deriving Repr, DecidableEq

/-- The webhook payload: one remote issue's full current state plus the
event-type tag (`webhookEvent`).  `slaEpochMillis` is the SLA breach
timestamp in milliseconds since epoch; `attachments` is the full remote
attachment identifier list. -/
structure RemotePayload where
  webhookEvent : String
  key : String
  summary : String
  description : String
  status : String
  resolution : Option String
  priority : String
  issuetype : String
  impact : String
  link : String
  reporter : String
  assignee : Option String
  slaEpochMillis : Option ℤ
  comments : List RemoteComment
  attachments : List String
deriving Repr, DecidableEq

/-- An outbound notification handed to the Notification Dispatcher. -/
inductive Notification where
  | issueUpdated (issueKey : String)
  | commentAdded (issueKey : String)
deriving Repr, DecidableEq

/-- The persistent state touched by one reconciliation. -/
structure Database where
  issues : List Issue
  users : List SupportUser
deriving Repr, DecidableEq

/-- Modelled from the spec (§4.5 Identity Resolver): look up the support user
by backend identifier; if absent, create a minimal stub (identifier only, no
linked account) and append it. -/
def resolveUser (users : List SupportUser) (bid : String) :
    SupportUser × List SupportUser :=
  match users.find? (fun u => u.backend_id == bid) with
  | some u => (u, users)
  | none =>
      let u : SupportUser := { backend_id := bid, user := none }
      (u, users ++ [u])

/-- Drop the characters up to and including the first `]: ` occurrence;
`none` when there is no such occurrence. -/
def stripAfterMarker : List Char → Option (List Char)
  | [] => none
  | ']' :: ':' :: ' ' :: rest => some rest
  | _ :: rest => stripAfterMarker rest

/-- Modelled from the spec (§4.3): strip the bracketed "on behalf of" marker
(`[Some Name]: rest`) from a remote comment body; a body without the marker
is returned unchanged. -/
def stripUserInfo (body : String) : String :=
  match body.data with
  | '[' :: rest =>
      match stripAfterMarker rest with
      | some stripped => String.mk stripped
      | none => body
  | _ => body

/-- Result of the Comment Synchronizer: the issue's new comment list, the
support-user table after author resolution, the backend ids of the comments
that were created, and whether any create/update/delete occurred. -/
structure SyncCommentsResult where
  comments : List Comment
  users : List SupportUser
  createdIds : List String
  changed : Bool
deriving Repr, DecidableEq

/-- Modelled from the spec (§4.3 Comment Synchronizer), per remote comment:
no local match by backend id → create with stripped body and resolved
author; match with differing stripped body → update (author re-resolved);
match with equal stripped body → no mutation.  Returns the synchronized
comments in remote order, the user table, created ids, and whether any
create or update happened. -/
def syncCommentsGo (locals : List Comment) (users : List SupportUser) :
    List RemoteComment → List Comment × List SupportUser × List String × Bool
  | [] => ([], users, [], false)
  | rc :: rest =>
    let body := stripUserInfo rc.body
    match locals.find? (fun c => c.backend_id == rc.id) with
    | some c =>
        if c.description = body then
          let r := syncCommentsGo locals users rest
          (c :: r.1, r.2.1, r.2.2.1, r.2.2.2)
        else
          let a := resolveUser users rc.author
          let r := syncCommentsGo locals a.snd rest
          ({ c with description := body, author := a.fst.backend_id } :: r.1,
           r.2.1, r.2.2.1, true)
    | none =>
        let a := resolveUser users rc.author
        let r := syncCommentsGo locals a.snd rest
        ({ backend_id := rc.id, description := body,
           author := a.fst.backend_id } :: r.1,
         r.2.1, rc.id :: r.2.2.1, true)

/-- Modelled from the spec (§4.3): full comment reconciliation.  Local
comments whose backend id is absent from the remote list are deleted (the
result is rebuilt from the remote list); `changed` also reports deletions. -/
def syncComments (users : List SupportUser) (remote : List RemoteComment)
    (locals : List Comment) : SyncCommentsResult :=
  let r := syncCommentsGo locals users remote
  let deletedAny := locals.any (fun c => remote.all (fun rc => rc.id != c.backend_id))
  { comments := r.1, users := r.2.1, createdIds := r.2.2.1,
    changed := r.2.2.2 || deletedAny }

/-- Result of the Attachment Synchronizer: the issue's new attachment list,
the ids whose content was fetched (one fetch per newly inserted id), and
whether any create/delete occurred. -/
structure SyncAttachmentsResult where
  attachments : List Attachment
  fetchedIds : List String
  changed : Bool
deriving Repr, DecidableEq

/-- Backend identifiers of a list of attachments. -/
def attIds (l : List Attachment) : List String :=
  l.map (fun a => a.backend_id)

/-- Modelled from the spec (§4.4 Attachment Synchronizer): keep the local
attachments whose id is still remote (content never updated in place),
delete the rest, and create one attachment per remote id with no local
match, fetching its content through the tracker collaborator `fetch`. -/
def syncAttachments (fetch : String → String) (remote : List String)
    (locals : List Attachment) : SyncAttachmentsResult :=
  let kept := locals.filter (fun a => decide (a.backend_id ∈ remote))
  let newIds := remote.filter (fun rid => decide (rid ∉ attIds locals))
  let created := newIds.map (fun rid =>
    { backend_id := rid, content := fetch rid : Attachment })
  { attachments := kept ++ created,
    fetchedIds := newIds,
    changed := decide (newIds ≠ []) || decide (kept.length ≠ locals.length) }

/-- Modelled from the spec (§4.2 Field Mapper): deterministic field copy from
the payload into the issue.  `resolution` falls back to the empty string when
the remote resolution is null; the SLA timestamp is converted from epoch
milliseconds to epoch seconds (absence leaves the field unchanged); the
reporter is resolved and the caller set to the reporter's linked account; an
absent remote assignee clears the local one.  Following the repository test
`test_issue_update_callback_does_not_update_issue_link`, the issue `link` is
left unchanged by reconciliation. -/
def mapFields (users : List SupportUser) (p : RemotePayload) (issue : Issue) :
    Issue × List SupportUser :=
  let r := resolveUser users p.reporter
  let rep := r.fst
  let users1 := r.snd
  let ar :=
    match p.assignee with
    | some aid => (some (resolveUser users1 aid).fst.backend_id, (resolveUser users1 aid).snd)
    | none => ((none : Option String), users1)
  let asg := ar.fst
  let users2 := ar.snd
  ({ issue with
      summary := p.summary
      description := p.description
      status := p.status
      resolution := p.resolution.getD ""
      priority := p.priority
      type := p.issuetype
      impact := p.impact
      first_response_sla :=
        match p.slaEpochMillis with
        | some m => some m
        | none => issue.first_response_sla
      reporter := rep.backend_id
      caller := rep.user
      assignee := asg }, users2)

/-- The stored SLA timestamp read back as seconds since epoch: the local
representation keeps millisecond precision, and this reading divides by
1000 to recover the absolute timestamp in seconds. -/
def slaSeconds (t : Option ℤ) : Option ℚ :=
  t.map (fun ms => (ms : ℚ) / 1000)

/-- The comparison-relevant fields of an issue, as a record. -/
structure IssueSnapshot where
  summary : String
  description : String
  status : String
  resolution : String
  priority : String
  type : String
  impact : String
  link : String
  first_response_sla : Option ℤ
  reporter : String
  assignee : Option String
  caller : Option Nat
deriving Repr, DecidableEq

/-- The comparison-relevant fields of an issue: the snapshot the Issue
Reconciler compares before and after mapping to decide whether the issue
itself was updated. -/
def issueFields (i : Issue) : IssueSnapshot :=
  { summary := i.summary, description := i.description, status := i.status,
    resolution := i.resolution, priority := i.priority, type := i.type,
    impact := i.impact, link := i.link,
    first_response_sla := i.first_response_sla, reporter := i.reporter,
    assignee := i.assignee, caller := i.caller }

/-- Result of reconciling one located issue. -/
structure IssueReconcileResult where
  issue : Issue
  users : List SupportUser
  notifications : List Notification
  fetchedIds : List String
deriving Repr, DecidableEq

/-- Modelled from the spec (§4.1 Issue Reconciler), for an issue already
located by backend identifier: apply the Field Mapper, run the Comment and
Attachment Synchronizers, and emit notifications.  Following the repository
test `test_web_hook_does_not_trigger_issue_update_email_if_the_issue_was_not_updated`,
one "issue updated" notification is emitted exactly when a comparison-relevant
field changed, and one "comment added" notification per created comment;
comment/attachment mutations alone emit no "issue updated" notification. -/
def reconcileIssue (fetch : String → String) (users : List SupportUser)
    (p : RemotePayload) (issue : Issue) : IssueReconcileResult :=
  let m := mapFields users p issue
  let mapped := m.fst
  let users1 := m.snd
  let cr := syncComments users1 p.comments issue.comments
  let ar := syncAttachments fetch p.attachments issue.attachments
  let newIssue := { mapped with comments := cr.comments, attachments := ar.attachments }
  { issue := newIssue
    users := cr.users
    notifications :=
      (if issueFields newIssue ≠ issueFields issue
        then [Notification.issueUpdated p.key] else []) ++
        cr.createdIds.map (fun _ => Notification.commentAdded p.key)
    fetchedIds := ar.fetchedIds }

/-- Result of one reconciliation invocation. -/
structure ReconcileResult where
  db : Database
  notifications : List Notification
  fetchedIds : List String
deriving Repr, DecidableEq

/-- Modelled from the spec (§4.1): locate the local issue by the payload's
backend key; if none exists, the payload is silently ignored (no creation,
no mutation, no notification); otherwise reconcile it and store the result. -/
def reconcile (fetch : String → String) (db : Database) (p : RemotePayload) :
    ReconcileResult :=
  match db.issues.find? (fun i => i.backend_id == p.key) with
  | none => { db := db, notifications := [], fetchedIds := [] }
  | some issue =>
      let r := reconcileIssue fetch db.users p issue
      { db := { issues := db.issues.map (fun i =>
                  if i.backend_id == p.key then r.issue else i),
                users := r.users }
        notifications := r.notifications
        fetchedIds := r.fetchedIds }

/-- Modelled from the spec (§6): the webhook boundary rejects a malformed
payload (modelled as `none`) with HTTP 400 before reaching the Reconciler,
and otherwise reconciles and answers HTTP 200. -/
def webHookReceiver (fetch : String → String) (db : Database)
    (p : Option RemotePayload) : Nat × ReconcileResult :=
  match p with
  | none => (400, { db := db, notifications := [], fetchedIds := [] })
  | some payload => (200, reconcile fetch db payload)

/-- Recognizer for "issue updated" notifications. -/
def isIssueUpdated : Notification → Bool
  | Notification.issueUpdated _ => true
  | Notification.commentAdded _ => false

/-! Concrete inputs, mirroring the fixtures of the repository tests. -/

/-- A concrete tracker collaborator returning attachment content. -/
def exFetch : String → String := fun _ => "bytes"

/-- A support-user table: a reporter linked to local account 7 and an
unlinked assignee. -/
def exUsers : List SupportUser :=
  [{ backend_id := "rep", user := some 7 }, { backend_id := "asg", user := none }]

/-- A payload for issue SNT-101 carrying one new comment (with an
"on behalf of" marker) and one new attachment. -/
def exPayload : RemotePayload :=
  { webhookEvent := "jira:issue_updated", key := "SNT-101", summary := "S",
    description := "D", status := "Open", resolution := some "Done",
    priority := "P", issuetype := "T", impact := "I", link := "Lremote",
    reporter := "rep", assignee := some "asg",
    slaEpochMillis := some 1453828155501,
    comments := [{ id := "c1", body := "[Luke Skywalker]: hello", author := "rep" }],
    attachments := ["att1"] }

/-- A local issue whose comparison-relevant fields all already match
`exPayload`, with no comments and no attachments yet. -/
def exIssue : Issue :=
  { backend_id := "SNT-101", summary := "S", description := "D",
    status := "Open", resolution := "Done", priority := "P", type := "T",
    impact := "I", link := "Llocal",
    first_response_sla := some 1453828155501,
    reporter := "rep", assignee := some "asg", caller := some 7,
    comments := [], attachments := [] }

/-- The database holding `exIssue` and `exUsers`. -/
def exDb : Database := { issues := [exIssue], users := exUsers }

/-- `exPayload` with a backend key matching no local issue, tagged with the
"created" event type. -/
def exPayloadUnknown : RemotePayload :=
  { exPayload with key := "SNT-102", webhookEvent := "jira:issue_created" }

/-- `exPayload` with an explicitly null remote resolution. -/
def exPayloadNoRes : RemotePayload :=
  { exPayload with resolution := none }

/-- `exIssue` with one local attachment ("old_id") absent from the remote
attachment list of `exPayload`. -/
def exIssueAtt : Issue :=
  { exIssue with attachments := [{ backend_id := "old_id", content := "x" }] }

/-! Claim theorems. -/

/-- C2: for every update payload whose backend identifier matches no local
Issue — including payloads tagged with the created event type —
reconciliation completes successfully, creates no Issue, performs zero
mutations on any entity, and sends zero notifications. -/
theorem c2_unknown_issue_noop (f : String → String) (db : Database)
    (p : RemotePayload)
    (h : db.issues.find? (fun i => i.backend_id == p.key) = none) :
    reconcile f db p = { db := db, notifications := [], fetchedIds := [] } := by
  unfold reconcile
  rw [h]

/-- Witness for C2: a "jira:issue_created"-tagged payload for the unknown
key SNT-102 leaves the database untouched and emits nothing. -/
theorem c2_witness :
    reconcile exFetch exDb exPayloadUnknown =
      { db := exDb, notifications := [], fetchedIds := [] } :=
  c2_unknown_issue_noop exFetch exDb exPayloadUnknown (by decide)

/-- C3 counterexample: reconciliation does not copy the payload's link into
the local issue — after reconciling `exIssue` (stored link "Llocal") against
`exPayload` (link "Lremote"), the issue's link still differs from the
payload's link, contradicting the claimed direct copy. -/
theorem c3_counterexample :
    (reconcileIssue exFetch exUsers exPayload exIssue).issue.link ≠
      exPayload.link := by
  have h : (reconcileIssue exFetch exUsers exPayload exIssue).issue.link =
      "Llocal" := rfl
  rw [h]
  decide

/-- C3 amended: reconciliation of an existing local Issue leaves the
Issue's link attribute unchanged (the link is not updated from the
payload), as the repository test
`test_issue_update_callback_does_not_update_issue_link` requires. -/
theorem c3_link_unchanged (f : String → String) (users : List SupportUser)
    (p : RemotePayload) (issue : Issue) :
    (reconcileIssue f users p issue).issue.link = issue.link := rfl

/-- C8: after reconciliation of an existing local Issue, the local
resolution is the remote resolution's name when present, and the empty
string when the remote resolution is null/absent. -/
theorem c8_resolution (f : String → String) (users : List SupportUser)
    (p : RemotePayload) (issue : Issue) :
    (∀ n, p.resolution = some n →
        (reconcileIssue f users p issue).issue.resolution = n) ∧
    (p.resolution = none →
        (reconcileIssue f users p issue).issue.resolution = "") := by
  have hres : (reconcileIssue f users p issue).issue.resolution =
      p.resolution.getD "" := rfl
  constructor
  · intro n hn
    rw [hres, hn]
    rfl
  · intro hn
    rw [hres, hn]
    rfl

/-- Witness for C8: with a remote resolution "Done" the stored resolution is
"Done"; with a null remote resolution it is the empty string. -/
theorem c8_witness :
    (reconcileIssue exFetch exUsers exPayload exIssue).issue.resolution = "Done" ∧
    (reconcileIssue exFetch exUsers exPayloadNoRes exIssue).issue.resolution = "" :=
  ⟨(c8_resolution exFetch exUsers exPayload exIssue).1 "Done" rfl,
   (c8_resolution exFetch exUsers exPayloadNoRes exIssue).2 rfl⟩

/-- C9: when the payload carries an SLA breach timestamp of m milliseconds
since epoch, the stored first_response_sla is the absolute timestamp of
m / 1000 seconds since epoch. -/
theorem c9_sla (f : String → String) (users : List SupportUser)
    (p : RemotePayload) (issue : Issue) (m : ℤ)
    (h : p.slaEpochMillis = some m) :
    slaSeconds (reconcileIssue f users p issue).issue.first_response_sla =
      some ((m : ℚ) / 1000) := by
  have hs : (reconcileIssue f users p issue).issue.first_response_sla =
      (match p.slaEpochMillis with
       | some m => some m
       | none => issue.first_response_sla) := rfl
  rw [hs, h]
  rfl

/-- Witness for C9: the fixture timestamp 1453828155501 ms is stored as
1453828155501/1000 seconds since epoch. -/
theorem c9_witness :
    slaSeconds (reconcileIssue exFetch exUsers exPayload exIssue).issue.first_response_sla =
      some (((1453828155501 : ℤ) : ℚ) / 1000) :=
  c9_sla exFetch exUsers exPayload exIssue 1453828155501 rfl

/-! Helper lemmas about the Identity Resolver, the Comment Synchronizer and
the Attachment Synchronizer. -/

/-- The resolved identity always carries the requested backend identifier,
whether looked up or stub-created. -/
theorem resolveUser_backend_id (users : List SupportUser) (bid : String) :
    (resolveUser users bid).fst.backend_id = bid := by
  unfold resolveUser
  cases h : users.find? (fun u => u.backend_id == bid) with
  | none => rfl
  | some u =>
      have hu := List.find?_some h
      simpa using hu

/-- The synchronized comment list carries exactly the remote comment ids, in
remote order. -/
theorem syncCommentsGo_map_id (locals : List Comment) (users : List SupportUser)
    (remote : List RemoteComment) :
    (syncCommentsGo locals users remote).1.map (fun c => c.backend_id) =
      remote.map (fun rc => rc.id) := by
  induction remote generalizing users with
  | nil => rfl
  | cons rc rest ih =>
      simp only [syncCommentsGo]
      cases h : locals.find? (fun c => c.backend_id == rc.id) with
      | none => simp [ih]
      | some c =>
          have hc : c.backend_id = rc.id := by
            have hp := List.find?_some h
            simpa using hp
          by_cases hd : c.description = stripUserInfo rc.body
          · simp [hd, ih, hc]
          · simp [hd, ih, hc]

/-- A remote comment with no local match yields a created local comment with
the stripped body and its author reference. -/
theorem syncCommentsGo_created_mem (locals : List Comment)
    (users : List SupportUser) (remote : List RemoteComment)
    (rc : RemoteComment) (hrc : rc ∈ remote)
    (hnone : locals.find? (fun c => c.backend_id == rc.id) = none) :
    ({ backend_id := rc.id, description := stripUserInfo rc.body,
       author := rc.author } : Comment) ∈ (syncCommentsGo locals users remote).1 := by
  induction remote generalizing users with
  | nil => cases hrc
  | cons hd rest ih =>
      rcases List.mem_cons.mp hrc with heq | hmem
      · subst heq
        simp only [syncCommentsGo, hnone]
        exact List.mem_cons.mpr (Or.inl (by rw [resolveUser_backend_id]))
      · simp only [syncCommentsGo]
        cases h : locals.find? (fun c => c.backend_id == hd.id) with
        | none => exact List.mem_cons_of_mem _ (ih _ hmem)
        | some c =>
            by_cases hdsc : c.description = stripUserInfo hd.body
            · simp only [if_pos hdsc]
              exact List.mem_cons_of_mem _ (ih _ hmem)
            · simp only [if_neg hdsc]
              exact List.mem_cons_of_mem _ (ih _ hmem)

/-- An id is among the reconciled attachment ids exactly when it is remote. -/
theorem attIds_syncAttachments (f : String → String) (remote : List String)
    (locals : List Attachment) (rid : String) :
    rid ∈ attIds (syncAttachments f remote locals).attachments ↔ rid ∈ remote := by
  simp only [syncAttachments, attIds, List.map_append, List.mem_append,
    List.map_map, List.mem_map, List.mem_filter, Function.comp,
    decide_eq_true_eq]
  constructor
  · rintro (⟨a, ⟨ha, hmem⟩, rfl⟩ | ⟨x, ⟨hx, _⟩, rfl⟩)
    · exact hmem
    · exact hx
  · intro hr
    by_cases hl : rid ∈ attIds locals
    · obtain ⟨a, ha, rfl⟩ := List.mem_map.mp hl
      exact Or.inl ⟨a, ⟨ha, hr⟩, rfl⟩
    · exact Or.inr ⟨rid, ⟨hr, by simpa [attIds] using hl⟩, rfl⟩

/-- A reconciled attachment whose id was already local is one of the local
attachments, untouched (content is never rewritten in place). -/
theorem syncAttachments_mem_of_old (f : String → String) (remote : List String)
    (locals : List Attachment) (a : Attachment)
    (ha : a ∈ (syncAttachments f remote locals).attachments)
    (hold : a.backend_id ∈ attIds locals) : a ∈ locals := by
  simp only [syncAttachments, List.mem_append, List.mem_filter, List.mem_map,
    decide_eq_true_eq] at ha
  rcases ha with ⟨h1, _⟩ | ⟨x, ⟨_, hnot⟩, rfl⟩
  · exact h1
  · exact absurd hold hnot

/-- An attachment whose id is not remote does not survive reconciliation. -/
theorem syncAttachments_deleted (f : String → String) (remote : List String)
    (locals : List Attachment) (a : Attachment)
    (habs : a.backend_id ∉ remote) :
    a ∉ (syncAttachments f remote locals).attachments := by
  intro hmem
  simp only [syncAttachments, List.mem_append, List.mem_filter, List.mem_map,
    decide_eq_true_eq] at hmem
  rcases hmem with ⟨_, h2⟩ | ⟨x, ⟨hx, _⟩, rfl⟩
  · exact habs h2
  · exact habs hx

/-- Reapplying the Attachment Synchronizer to its own output is the identity
and fetches nothing. -/
theorem syncAttachments_stable (f g : String → String) (remote : List String)
    (locals : List Attachment) :
    (syncAttachments g remote (syncAttachments f remote locals).attachments).attachments
        = (syncAttachments f remote locals).attachments ∧
    (syncAttachments g remote (syncAttachments f remote locals).attachments).fetchedIds
        = [] := by
  have hmem : ∀ a ∈ (syncAttachments f remote locals).attachments,
      a.backend_id ∈ remote := fun a ha =>
    (attIds_syncAttachments f remote locals a.backend_id).mp
      (List.mem_map_of_mem _ ha)
  have hnew : remote.filter
      (fun rid => decide (rid ∉ attIds (syncAttachments f remote locals).attachments)) = [] := by
    rw [List.filter_eq_nil_iff]
    intro rid hr
    simp only [decide_eq_true_eq, Decidable.not_not]
    exact (attIds_syncAttachments f remote locals rid).mpr hr
  have hkept : (syncAttachments f remote locals).attachments.filter
      (fun a => decide (a.backend_id ∈ remote)) =
      (syncAttachments f remote locals).attachments := by
    rw [List.filter_eq_self]
    intro a ha
    simpa using hmem a ha
  constructor
  · show (syncAttachments f remote locals).attachments.filter _ ++
        (remote.filter _).map _ = _
    rw [hnew, hkept, List.map_nil, List.append_nil]
  · show remote.filter _ = []
    exact hnew

/-- Under nodup remote ids and nodup local ids, a remote id ends up on
exactly one reconciled attachment. -/
theorem syncAttachments_count_new (f : String → String) (remote : List String)
    (locals : List Attachment) (aid : String)
    (hmem : aid ∈ remote) (hR : remote.Nodup) (hL : (attIds locals).Nodup) :
    ((syncAttachments f remote locals).attachments.filter
        (fun a => a.backend_id == aid)).length = 1 := by
  show ((locals.filter (fun a => decide (a.backend_id ∈ remote)) ++
      (remote.filter (fun rid => decide (rid ∉ attIds locals))).map
        (fun rid => ({ backend_id := rid, content := f rid } : Attachment))).filter
      (fun a => a.backend_id == aid)).length = 1
  rw [List.filter_append, List.length_append]
  by_cases haid : aid ∈ attIds locals
  · have hcre : (((remote.filter (fun rid => decide (rid ∉ attIds locals))).map
        (fun rid => ({ backend_id := rid, content := f rid } : Attachment))).filter
        (fun a => a.backend_id == aid)) = [] := by
      rw [List.filter_eq_nil_iff]
      intro a hma
      obtain ⟨rid, hrid, rfl⟩ := List.mem_map.mp hma
      have h1 := (List.mem_filter.mp hrid).2
      simp only [decide_eq_true_eq] at h1
      simp only [beq_iff_eq]
      intro heq
      exact h1 (heq ▸ haid)
    have hkeptlen : (((locals.filter (fun a => decide (a.backend_id ∈ remote))).filter
        (fun a => a.backend_id == aid))).length = 1 := by
      rw [List.filter_filter]
      have hfun : (fun a : Attachment =>
          (a.backend_id == aid) && decide (a.backend_id ∈ remote)) =
          (fun a : Attachment => a.backend_id == aid) := by
        funext a
        by_cases h : a.backend_id = aid
        · simp [h, hmem]
        · simp [h]
      rw [hfun]
      have hmapped : (locals.filter (fun a => a.backend_id == aid)).length =
          ((attIds locals).filter (fun s => s == aid)).length := by
        unfold attIds
        rw [List.filter_map, List.length_map]
        rfl
      rw [hmapped, ← List.countP_eq_length_filter]
      exact List.count_eq_one_of_mem hL haid
    rw [hcre, hkeptlen]
    rfl
  · have hkept0 : (((locals.filter (fun a => decide (a.backend_id ∈ remote))).filter
        (fun a => a.backend_id == aid))) = [] := by
      rw [List.filter_eq_nil_iff]
      intro a hma
      have h1 := (List.mem_filter.mp hma).1
      simp only [beq_iff_eq]
      intro heq
      exact haid (heq ▸ List.mem_map_of_mem (fun a => a.backend_id) h1)
    have hnewmem : aid ∈ remote.filter (fun rid => decide (rid ∉ attIds locals)) :=
      List.mem_filter.mpr ⟨hmem, by simpa using haid⟩
    have hnodup : (remote.filter (fun rid => decide (rid ∉ attIds locals))).Nodup :=
      hR.filter _
    have hcrelen : ((((remote.filter (fun rid => decide (rid ∉ attIds locals))).map
        (fun rid => ({ backend_id := rid, content := f rid } : Attachment))).filter
        (fun a => a.backend_id == aid))).length = 1 := by
      rw [List.filter_map, List.length_map]
      have hfun : ((fun a : Attachment => a.backend_id == aid) ∘
          (fun rid => ({ backend_id := rid, content := f rid } : Attachment))) =
          (fun rid => rid == aid) := rfl
      rw [hfun, ← List.countP_eq_length_filter]
      exact List.count_eq_one_of_mem hnodup hnewmem
    rw [hkept0, hcrelen]
    rfl

/-- Only a changed snapshot contributes an "issue updated" notification; the
comment-added notifications never do. -/
theorem filter_isIssueUpdated_reconcileIssue (f : String → String)
    (users : List SupportUser) (p : RemotePayload) (issue : Issue) :
    (reconcileIssue f users p issue).notifications.filter isIssueUpdated =
      (if issueFields (reconcileIssue f users p issue).issue = issueFields issue
        then [] else [Notification.issueUpdated p.key]) := by
  have hn : (reconcileIssue f users p issue).notifications =
      (if issueFields (reconcileIssue f users p issue).issue ≠ issueFields issue
        then [Notification.issueUpdated p.key] else []) ++
      (syncComments (mapFields users p issue).snd p.comments
        issue.comments).createdIds.map
        (fun _ => Notification.commentAdded p.key) := rfl
  rw [hn, List.filter_append]
  have hmapnil : (((syncComments (mapFields users p issue).snd p.comments
      issue.comments).createdIds.map
      (fun _ => Notification.commentAdded p.key)).filter isIssueUpdated) = [] := by
    rw [List.filter_eq_nil_iff]
    intro a ha
    obtain ⟨x, _, rfl⟩ := List.mem_map.mp ha
    simp [isIssueUpdated]
  rw [hmapnil, List.append_nil]
  by_cases hch : issueFields (reconcileIssue f users p issue).issue = issueFields issue
  · rw [if_neg (not_not_intro hch), if_pos hch]
    rfl
  · rw [if_pos hch, if_neg hch]
    simp [isIssueUpdated]

/-- C1 counterexample: reconciling `exPayload` against `exDb` (whose issue
matches every comparison-relevant payload field) creates a comment — a
comment mutation occurred, the issue went from zero to one comment — yet
zero "issue updated" notifications are emitted, refuting the claim that a
comment mutation alone must emit exactly one issue-updated notification. -/
theorem c1_counterexample :
    ((reconcile exFetch exDb exPayload).notifications.filter isIssueUpdated).length = 0 ∧
    (reconcile exFetch exDb exPayload).db.issues.map (fun i => i.comments.length) = [1] ∧
    exIssue.comments.length = 0 := by
  refine ⟨by decide, by decide, rfl⟩

/-- C1 amended: a reconciliation invocation emits one "issue updated"
notification exactly when some comparison-relevant field of the issue
changed — comment/attachment mutations alone emit none — and never more
than one per invocation. -/
theorem c1_issue_updated_iff_fields_changed (f : String → String)
    (users : List SupportUser) (p : RemotePayload) (issue : Issue) :
    (((reconcileIssue f users p issue).notifications.filter isIssueUpdated).length =
      if issueFields (reconcileIssue f users p issue).issue = issueFields issue
        then 0 else 1) ∧
    (∀ (g : String → String) (db : Database) (q : RemotePayload),
      ((reconcile g db q).notifications.filter isIssueUpdated).length ≤ 1) := by
  constructor
  · rw [filter_isIssueUpdated_reconcileIssue]
    by_cases hch : issueFields (reconcileIssue f users p issue).issue = issueFields issue
    · simp [hch]
    · simp [hch]
  · intro g db q
    cases h : db.issues.find? (fun i => i.backend_id == q.key) with
    | none =>
        unfold reconcile
        rw [h]
        simp
    | some i =>
        unfold reconcile
        rw [h]
        show (((reconcileIssue g db.users q i).notifications).filter isIssueUpdated).length ≤ 1
        rw [filter_isIssueUpdated_reconcileIssue]
        by_cases hch : issueFields (reconcileIssue g db.users q i).issue = issueFields i
        · simp [hch]
        · simp [hch]

/-- C4: a remote comment matching a local comment whose stored description
already equals the stripped remote body — even though the raw remote bytes
differ — causes no mutation: the stored comment survives byte-identical and
the synchronizer's user table, created ids and update flag are exactly those
of the remaining comments. -/
theorem c4_unchanged_comment_not_mutated (users : List SupportUser)
    (locals : List Comment) (rc : RemoteComment) (rest : List RemoteComment)
    (c : Comment)
    (_hraw : rc.body ≠ c.description)
    (hfind : locals.find? (fun x => x.backend_id == rc.id) = some c)
    (hstrip : stripUserInfo rc.body = c.description) :
    (syncCommentsGo locals users (rc :: rest)).1 =
      c :: (syncCommentsGo locals users rest).1 ∧
    (syncCommentsGo locals users (rc :: rest)).2 =
      (syncCommentsGo locals users rest).2 := by
  constructor
  · simp only [syncCommentsGo, hfind, if_pos hstrip.symm]
  · simp only [syncCommentsGo, hfind, if_pos hstrip.symm]

/-- Witness for C4: the remote body "[Luke Skywalker]: hello" differs
byte-wise from the stored "hello" but strips to it, so the stored comment is
kept untouched and nothing else happens. -/
theorem c4_witness :
    (syncCommentsGo [{ backend_id := "c1", description := "hello", author := "rep" }]
        exUsers [{ id := "c1", body := "[Luke Skywalker]: hello", author := "rep" }]).1 =
      [{ backend_id := "c1", description := "hello", author := "rep" }] ∧
    (syncCommentsGo [{ backend_id := "c1", description := "hello", author := "rep" }]
        exUsers [{ id := "c1", body := "[Luke Skywalker]: hello", author := "rep" }]).2 =
      (syncCommentsGo [{ backend_id := "c1", description := "hello", author := "rep" }]
        exUsers []).2 :=
  c4_unchanged_comment_not_mutated exUsers
    [{ backend_id := "c1", description := "hello", author := "rep" }]
    { id := "c1", body := "[Luke Skywalker]: hello", author := "rep" } []
    { backend_id := "c1", description := "hello", author := "rep" }
    (by decide) (by decide) (by decide)

/-- C5: attachment reconciliation is idempotent: reconciling the same
payload twice leaves exactly one attachment with the carried id, the second
application fetches (and creates) nothing, and the first application fetches
each id exactly once — precisely the remote ids that were newly inserted. -/
theorem c5_attachment_idempotent (f : String → String)
    (users : List SupportUser) (p : RemotePayload) (issue : Issue)
    (aid : String)
    (hmem : aid ∈ p.attachments)
    (hR : p.attachments.Nodup)
    (hL : (attIds issue.attachments).Nodup) :
    (((reconcileIssue f (reconcileIssue f users p issue).users p
        (reconcileIssue f users p issue).issue).issue.attachments.filter
        (fun a => a.backend_id == aid)).length = 1) ∧
    (reconcileIssue f (reconcileIssue f users p issue).users p
        (reconcileIssue f users p issue).issue).fetchedIds = [] ∧
    (reconcileIssue f users p issue).fetchedIds.Nodup ∧
    (∀ rid, rid ∈ (reconcileIssue f users p issue).fetchedIds ↔
        (rid ∈ p.attachments ∧ rid ∉ attIds issue.attachments)) := by
  have h2 : (reconcileIssue f (reconcileIssue f users p issue).users p
      (reconcileIssue f users p issue).issue).issue.attachments =
      (syncAttachments f p.attachments
        (syncAttachments f p.attachments issue.attachments).attachments).attachments := rfl
  have h2f : (reconcileIssue f (reconcileIssue f users p issue).users p
      (reconcileIssue f users p issue).issue).fetchedIds =
      (syncAttachments f p.attachments
        (syncAttachments f p.attachments issue.attachments).attachments).fetchedIds := rfl
  have h1f : (reconcileIssue f users p issue).fetchedIds =
      p.attachments.filter (fun rid => decide (rid ∉ attIds issue.attachments)) := rfl
  refine ⟨?_, ?_, ?_, ?_⟩
  · rw [h2, (syncAttachments_stable f f p.attachments issue.attachments).1]
    exact syncAttachments_count_new f p.attachments issue.attachments aid hmem hR hL
  · rw [h2f]
    exact (syncAttachments_stable f f p.attachments issue.attachments).2
  · rw [h1f]
    exact hR.filter _
  · intro rid
    rw [h1f]
    simp [List.mem_filter]

/-- Witness for C5: delivering `exPayload` (attachment id "att1") twice to
`exIssue` yields exactly one attachment with that id, and the first delivery
fetched it. -/
theorem c5_witness :
    (((reconcileIssue exFetch (reconcileIssue exFetch exUsers exPayload exIssue).users
        exPayload (reconcileIssue exFetch exUsers exPayload exIssue).issue).issue.attachments.filter
        (fun a => a.backend_id == "att1")).length = 1) ∧
    ("att1" ∈ (reconcileIssue exFetch exUsers exPayload exIssue).fetchedIds) := by
  have h := c5_attachment_idempotent exFetch exUsers exPayload exIssue "att1"
    (by decide) (by decide) (by decide)
  exact ⟨h.1, (h.2.2.2 "att1").mpr (by decide)⟩

/-- C6: after reconciliation the local attachment id set is exactly the
remote id set; local attachments with ids outside the remote list are
deleted, and attachments whose id was already local survive untouched (no
in-place content update). -/
theorem c6_attachment_convergence (f : String → String)
    (users : List SupportUser) (p : RemotePayload) (issue : Issue) :
    (∀ rid, rid ∈ attIds (reconcileIssue f users p issue).issue.attachments ↔
        rid ∈ p.attachments) ∧
    (∀ a ∈ issue.attachments, a.backend_id ∉ p.attachments →
        a ∉ (reconcileIssue f users p issue).issue.attachments) ∧
    (∀ a ∈ (reconcileIssue f users p issue).issue.attachments,
        a.backend_id ∈ attIds issue.attachments → a ∈ issue.attachments) := by
  have hat : (reconcileIssue f users p issue).issue.attachments =
      (syncAttachments f p.attachments issue.attachments).attachments := rfl
  refine ⟨?_, ?_, ?_⟩
  · intro rid
    rw [hat]
    exact attIds_syncAttachments f p.attachments issue.attachments rid
  · intro a _ habs
    rw [hat]
    exact syncAttachments_deleted f p.attachments issue.attachments a habs
  · intro a hmem hold
    rw [hat] at hmem
    exact syncAttachments_mem_of_old f p.attachments issue.attachments a hmem hold

/-- Witness for C6: against `exIssueAtt` (one local attachment "old_id"),
the payload list ["att1"] leaves "att1" present and "old_id" deleted. -/
theorem c6_witness :
    ("att1" ∈ attIds (reconcileIssue exFetch exUsers exPayload exIssueAtt).issue.attachments) ∧
    ({ backend_id := "old_id", content := "x" } : Attachment) ∉
      (reconcileIssue exFetch exUsers exPayload exIssueAtt).issue.attachments := by
  constructor
  · exact ((c6_attachment_convergence exFetch exUsers exPayload exIssueAtt).1 "att1").mpr
      (by decide)
  · exact (c6_attachment_convergence exFetch exUsers exPayload exIssueAtt).2.1
      { backend_id := "old_id", content := "x" } (by decide) (by decide)

/-- C7: after the Comment Synchronizer runs, the local comment ids are
exactly the remote comment ids; remote comments with no local match are
created with the stripped body, and local comments with ids outside the
remote list are deleted. -/
theorem c7_comment_convergence (f : String → String)
    (users : List SupportUser) (p : RemotePayload) (issue : Issue) :
    ((reconcileIssue f users p issue).issue.comments.map (fun c => c.backend_id) =
      p.comments.map (fun rc => rc.id)) ∧
    (∀ rc ∈ p.comments, (∀ c ∈ issue.comments, c.backend_id ≠ rc.id) →
      ({ backend_id := rc.id, description := stripUserInfo rc.body,
         author := rc.author } : Comment) ∈
        (reconcileIssue f users p issue).issue.comments) ∧
    (∀ c ∈ issue.comments, c.backend_id ∉ p.comments.map (fun rc => rc.id) →
      c ∉ (reconcileIssue f users p issue).issue.comments) := by
  have hcm : (reconcileIssue f users p issue).issue.comments =
      (syncCommentsGo issue.comments (mapFields users p issue).snd p.comments).1 := rfl
  refine ⟨?_, ?_, ?_⟩
  · rw [hcm, syncCommentsGo_map_id]
  · intro rc hrc hnl
    rw [hcm]
    refine syncCommentsGo_created_mem _ _ _ _ hrc ?_
    rw [List.find?_eq_none]
    intro c hc
    simpa using hnl c hc
  · intro c hc habs hmem
    apply habs
    have h1 : c.backend_id ∈
        ((reconcileIssue f users p issue).issue.comments.map (fun c => c.backend_id)) :=
      List.mem_map_of_mem _ hmem
    rw [hcm, syncCommentsGo_map_id] at h1
    exact h1

/-- Witness for C7: `exPayload` carries the single remote comment "c1" with
body "[Luke Skywalker]: hello"; reconciling `exIssue` (no local comments)
creates the comment with the stripped body "hello". -/
theorem c7_witness :
    ({ backend_id := "c1", description := "hello", author := "rep" } : Comment) ∈
      (reconcileIssue exFetch exUsers exPayload exIssue).issue.comments := by
  have h := (c7_comment_convergence exFetch exUsers exPayload exIssue).2.1
    { id := "c1", body := "[Luke Skywalker]: hello", author := "rep" }
    (by decide) (by decide)
  have hs : stripUserInfo "[Luke Skywalker]: hello" = "hello" := by decide
  rw [hs] at h
  exact h

/-- C10: when a reconciliation of an existing local Issue creates one new
local comment and no comparison-relevant field changed, exactly one
"comment added" notification is sent — and it is the only one — while the
webhook call answers HTTP 200. -/
theorem c10_comment_added_email (f : String → String)
    (users : List SupportUser) (p : RemotePayload) (issue : Issue)
    (cid : String) (db : Database)
    (h1 : issueFields (reconcileIssue f users p issue).issue = issueFields issue)
    (h2 : (syncComments (mapFields users p issue).snd p.comments
        issue.comments).createdIds = [cid]) :
    (reconcileIssue f users p issue).notifications =
      [Notification.commentAdded p.key] ∧
    (webHookReceiver f db (some p)).fst = 200 := by
  constructor
  · have hn : (reconcileIssue f users p issue).notifications =
        (if issueFields (reconcileIssue f users p issue).issue ≠ issueFields issue
          then [Notification.issueUpdated p.key] else []) ++
        (syncComments (mapFields users p issue).snd p.comments
          issue.comments).createdIds.map
          (fun _ => Notification.commentAdded p.key) := rfl
    rw [hn, h2, if_neg (not_not_intro h1)]
    rfl
  · rfl

/-- Witness for C10: reconciling `exPayload` (one new comment, all fields
already matching) sends exactly the "comment added" notification for
SNT-101, and the webhook answers 200. -/
theorem c10_witness :
    (reconcileIssue exFetch exUsers exPayload exIssue).notifications =
      [Notification.commentAdded "SNT-101"] ∧
    (webHookReceiver exFetch exDb (some exPayload)).fst = 200 :=
  c10_comment_added_email exFetch exUsers exPayload exIssue "c1" exDb
    (by decide) (by decide)
